import Mathlib

/-!
Shallow embedding of the otp-auth service core: phone-number validator,
OTP challenge repository and verification service, rate limiter, and the
JWT/session token store.  Timestamps are modelled as `Int` (Go `time.Time`
differences are signed durations); the relational and Redis stores are
modelled as lists; external-store failures are injected through explicit
Boolean flags mirroring each fallible call in the Go code.
-/

namespace OtpAuth

/-- Process-wide configuration (config.Load defaults; durations in seconds). -/
structure Config where
  otpLength : Nat
  otpExpirationTime : Int
  rateLimitMaxRequests : Nat
  rateLimitWindowDuration : Int
  jwtSecret : String
  jwtExpirationTime : Int
  deriving Repr, DecidableEq

/-- Defaults from config.Load: OTP_LENGTH=6, OTP_EXPIRATION_TIME=2m,
RATE_LIMIT_MAX_REQUESTS=3, RATE_LIMIT_WINDOW_DURATION=10m,
JWT_EXPIRATION_TIME=24h. -/
def defaultConfig : Config :=
  { otpLength := 6
    otpExpirationTime := 120
    rateLimitMaxRequests := 3
    rateLimitWindowDuration := 600
    jwtSecret := "your-super-secret-key-change-in-production"
    jwtExpirationTime := 86400 }

/-! ## Phone number validator (validator/validator.go, validatePhoneNumber)

The Go validator matches the string against the anchored regular expression
with a leading plus sign, one digit 1-9, then 6 to 14 further digits. -/

def isAsciiDigit (c : Char) : Bool := '0' ≤ c && c ≤ '9'

/-- validatePhoneNumber: the anchored pattern plus, [1-9], then 6-14 digits,
translated structurally onto the character list of the string. -/
def validatePhoneNumber (s : String) : Bool :=
  match s.data with
  | c₀ :: c :: cs =>
      c₀ == '+' && ('1' ≤ c && c ≤ '9') && cs.all isAsciiDigit &&
        decide (6 ≤ cs.length) && decide (cs.length ≤ 14)
  | _ => false

/-- Modelled from the spec's words (section 4.1): leading plus, first digit
1-9, followed by 6-14 more digits (total digits after plus in range 7-15),
no other characters.  Used to compare the prose contract against
`validatePhoneNumber`. -/
def PhoneSpec (s : String) : Prop :=
  ∃ (c : Char) (ds : List Char),
    s.data = '+' :: c :: ds ∧
    ('1' ≤ c ∧ c ≤ '9') ∧
    (∀ d ∈ ds, '0' ≤ d ∧ d ≤ '9') ∧
    6 ≤ ds.length ∧ ds.length ≤ 14

/-! ## OTP challenge rows (entity.OTP; table otps)

`session_token` carries a UNIQUE constraint (migration 005), `id` is the
SERIAL primary key. -/

structure OTP where
  id : Nat
  phone_number : String
  code : String
  session_token : String
  expires_at : Int
  is_used : Bool
  created_at : Int
  used_at : Option Int
  deriving Repr, DecidableEq

/-- Row predicate of GetActiveBySessionTokenAndCode's WHERE clause:
session_token = $1 AND code = $2 AND is_used = FALSE AND
expires_at > CURRENT_TIMESTAMP. -/
def activeMatch (now : Int) (sessionToken code : String) (o : OTP) : Bool :=
  o.session_token == sessionToken && o.code == code &&
    o.is_used == false && decide (now < o.expires_at)

/-- ORDER BY created_at DESC LIMIT 1 over a set of candidate rows. -/
def pickLatest : List OTP → Option OTP
  | [] => none
  | o :: rest =>
      match pickLatest rest with
      | none => some o
      | some b => if b.created_at > o.created_at then some b else some o

/-- otpRepository.GetActiveBySessionTokenAndCode: the unused, unexpired row
matching (session_token, code), most recently created first. -/
def getActiveBySessionTokenAndCode (db : List OTP) (now : Int)
    (sessionToken code : String) : Option OTP :=
  pickLatest (db.filter (activeMatch now sessionToken code))

/-- otpRepository.MarkAsUsed: UPDATE otps SET is_used = TRUE,
used_at = CURRENT_TIMESTAMP WHERE id = $1 AND is_used = FALSE.
Returns the updated table and the number of affected rows. -/
def markAsUsed (db : List OTP) (now : Int) (id : Nat) : List OTP × Nat :=
  (db.map (fun o =>
      if o.id == id && o.is_used == false then
        { o with is_used := true, used_at := some now }
      else o),
   db.countP (fun o => o.id == id && o.is_used == false))

/-- The session_token UNIQUE constraint of migration 005. -/
def sessionTokensNodup (db : List OTP) : Prop :=
  (db.map (fun o => o.session_token)).Nodup

/-! ## User directory (entity.User; repository.UserRepository) -/

structure User where
  id : Nat
  phone_number : String
  registered_at : Int
  last_login_at : Option Int
  is_active : Bool
  deriving Repr, DecidableEq

/-- userRepository.GetByPhoneNumber: SELECT ... WHERE phone_number = $1 AND
is_active = TRUE (nil result on no rows). -/
def getByPhoneNumber (db : List User) (phoneNumber : String) : Option User :=
  db.find? (fun u => u.phone_number == phoneNumber && u.is_active)

/-- The SERIAL id handed to a freshly inserted user row. -/
def nextUserId (db : List User) : Nat :=
  (db.map (fun u => u.id)).foldr max 0 + 1

/-- userRepository.Create: INSERT with registered_at = now,
last_login_at = registered_at, is_active = true. -/
def createUser (db : List User) (now : Int) (phoneNumber : String) :
    List User × User :=
  let u : User :=
    { id := nextUserId db
      phone_number := phoneNumber
      registered_at := now
      last_login_at := some now
      is_active := true }
  (db ++ [u], u)

/-- userRepository.UpdateLastLogin: UPDATE users SET
last_login_at = CURRENT_TIMESTAMP WHERE phone_number = $1 AND
is_active = TRUE; returns updated table and affected-row count (the Go code
errors when that count is zero). -/
def updateLastLogin (db : List User) (now : Int) (phoneNumber : String) :
    List User × Nat :=
  (db.map (fun u =>
      if u.phone_number == phoneNumber && u.is_active then
        { u with last_login_at := some now }
      else u),
   db.countP (fun u => u.phone_number == phoneNumber && u.is_active))

/-! ## OTP verification service (otpService.VerifyOTP)

Each external-store call of the Go method gets a failure flag; the two
database reads/writes of the OTP table take the table state at the moment
the call runs, so an interleaved concurrent update between the lookup and
the conditional mark shows up as `odbMark` differing from `odbLookup`.
The sequential (uninterfered) run is `verifyOTP`, where both coincide. -/

structure VerifyEnv where
  lookupFails : Bool
  markExecFails : Bool
  getUserFails : Bool
  createUserFails : Bool
  updateLoginFails : Bool
  deriving Repr, DecidableEq

/-- All external calls succeed. -/
def verifyEnvOk : VerifyEnv :=
  { lookupFails := false, markExecFails := false, getUserFails := false
    createUserFails := false, updateLoginFails := false }

/-- Result of a VerifyOTP run: final OTP table, final user table, and either
the resolved user or the error string the Go method returns. -/
structure VerifyResult where
  otps : List OTP
  users : List User
  result : Except String User
  deriving Repr

/-- otpService.VerifyOTP with the OTP-table state at lookup time and at
mark time given separately (equal in a sequential run). Error strings are
the ones built by the Go code's fmt.Errorf wrapping. -/
def verifyOTPSteps (env : VerifyEnv) (odbLookup odbMark : List OTP)
    (udb : List User) (now : Int) (sessionToken code : String) : VerifyResult :=
  if env.lookupFails then
    ⟨odbMark, udb, .error "failed to verify OTP: storage error"⟩
  else
    match getActiveBySessionTokenAndCode odbLookup now sessionToken code with
    | none => ⟨odbMark, udb, .error "invalid or expired OTP"⟩
    | some otp =>
      if env.markExecFails then
        ⟨odbMark, udb, .error "failed to mark OTP as used: storage error"⟩
      else
        let marked := markAsUsed odbMark now otp.id
        if marked.2 == 0 then
          ⟨marked.1, udb,
            .error "failed to mark OTP as used: OTP not found or already used"⟩
        else
          if env.getUserFails then
            ⟨marked.1, udb, .error "failed to get user: storage error"⟩
          else
            match getByPhoneNumber udb otp.phone_number with
            | none =>
              if env.createUserFails then
                ⟨marked.1, udb, .error "failed to create user: storage error"⟩
              else
                let created := createUser udb now otp.phone_number
                ⟨marked.1, created.1, .ok created.2⟩
            | some user =>
              if env.updateLoginFails then
                ⟨marked.1, udb, .error "failed to update last login: storage error"⟩
              else
                let upd := updateLastLogin udb now otp.phone_number
                if upd.2 == 0 then
                  ⟨marked.1, upd.1,
                    .error "failed to update last login: user not found or inactive"⟩
                else
                  ⟨marked.1, upd.1, .ok user⟩

/-- otpService.VerifyOTP run without interference between its two OTP-table
accesses. -/
def verifyOTP (env : VerifyEnv) (odb : List OTP) (udb : List User)
    (now : Int) (sessionToken code : String) : VerifyResult :=
  verifyOTPSteps env odb odb udb now sessionToken code

/-! ## Verify endpoint (OTPController.VerifyOTP; entity.VerifyOTPRequest) -/

structure VerifyOTPRequest where
  token : String
  code : String
  deriving Repr, DecidableEq

/-- The binding-validation of VerifyOTPRequest: Token `required`,
Code `required,len=6` (go-playground: required on a string means non-empty,
len compares the character count with the parameter). -/
def validateVerifyOTPRequest (r : VerifyOTPRequest) : Bool :=
  (r.token.length != 0) && (r.code.length != 0) && (r.code.length == 6)

/-- OTPController.VerifyOTP's mapping of a service error to an HTTP status:
exactly the string "invalid or expired OTP" becomes 401, everything else
500. -/
def verifyErrorStatus (e : String) : Nat :=
  if e == "invalid or expired OTP" then 401 else 500

/-- OTPController.VerifyOTP up to (and excluding) JWT issuance: request
validation first (400 with no side effect), then the service call with its
error-to-status mapping; 200 on success. -/
def verifyOTPEndpoint (env : VerifyEnv) (odb : List OTP) (udb : List User)
    (now : Int) (req : VerifyOTPRequest) : List OTP × List User × Nat :=
  if validateVerifyOTPRequest req = false then
    (odb, udb, 400)
  else
    let r := verifyOTP env odb udb now req.token req.code
    match r.result with
    | .error e => (r.otps, r.users, verifyErrorStatus e)
    | .ok _ => (r.otps, r.users, 200)

/-! ## OTP code generation (otpService.generateOTPCode)

crypto/rand draws a uniform number below 10^Length; Sprintf with the
dynamic zero-padding verb left-pads the decimal digits to the configured
width.  The random draw itself is an input here (`rnd`). -/

def digitChar (d : Nat) : Char := Char.ofNat (48 + d)

/-- Decimal digit characters of a natural number, most significant first
(fuel-based recursion; the fuel x + 1 always suffices). -/
def natDigitsAux : Nat → Nat → List Char
  | 0, _ => []
  | fuel + 1, x =>
    if x < 10 then [digitChar x]
    else natDigitsAux fuel (x / 10) ++ [digitChar (x % 10)]

def natDigits (x : Nat) : List Char := natDigitsAux (x + 1) x

/-- otpService.generateOTPCode for a given random draw `rnd` (the Go code
guarantees rnd < 10^length): decimal rendering zero-padded to `length`. -/
def generateOTPCode (length : Nat) (rnd : Nat) : String :=
  let ds := natDigits rnd
  ⟨List.replicate (length - ds.length) '0' ++ ds⟩

/-! ## Rate limiter (entity.RateLimitInfo; otpService.IsRateLimited and
otpService.updateRateLimit)

The backing key-value store (per phone number) is an association list; the
Redis repository implementation is plain get/upsert of this record. -/

structure RateLimitInfo where
  phone_number : String
  request_count : Nat
  last_request_at : Int
  window_start_at : Int
  deriving Repr, DecidableEq

/-- The rate-limit store keyed by phone number. -/
abbrev RLStore := List (String × RateLimitInfo)

/-- GetRateLimit (otpRepository.GetRateLimit: SELECT by phone_number,
nil on no rows; the Redis-backed repository bound in main obeys the same
contract). -/
def rlGet (st : RLStore) (phoneNumber : String) : Option RateLimitInfo :=
  (List.find? (fun kv => kv.1 == phoneNumber) st).map (fun kv => kv.2)

/-- UpdateRateLimit (otpRepository.UpdateRateLimit: INSERT ... ON CONFLICT
(phone_number) DO UPDATE — an upsert keyed by phone number). -/
def rlUpsert (st : RLStore) (info : RateLimitInfo) : RLStore :=
  (info.phone_number, info) ::
    List.filter (fun kv => !(kv.1 == info.phone_number)) st

/-- otpService.IsRateLimited on an already-fetched record: no record means
not limited; an elapsed window (now - window_start_at >= windowDuration)
means not limited (the reset happens in updateRateLimit); otherwise limited
iff request_count >= maxRequests. -/
def isRateLimited (cfg : Config) (cur : Option RateLimitInfo) (now : Int) : Bool :=
  match cur with
  | none => false
  | some r =>
    if now - r.window_start_at ≥ cfg.rateLimitWindowDuration then false
    else decide (r.request_count ≥ cfg.rateLimitMaxRequests)

/-- otpService.updateRateLimit's new record value: first request starts a
window at count 1; an elapsed window resets to count 1 with a new start;
otherwise the count is incremented, the window start kept. -/
def updateRateLimitInfo (cfg : Config) (cur : Option RateLimitInfo)
    (now : Int) (phoneNumber : String) : RateLimitInfo :=
  match cur with
  | none =>
    { phone_number := phoneNumber, request_count := 1
      last_request_at := now, window_start_at := now }
  | some r =>
    if now - r.window_start_at ≥ cfg.rateLimitWindowDuration then
      { r with request_count := 1, window_start_at := now, last_request_at := now }
    else
      { r with request_count := r.request_count + 1, last_request_at := now }

/-! ## SendOTP (otpService.SendOTP) -/

/-- Failure flags and random draws for one SendOTP call, one per external
call in the Go method. -/
structure SendEnv where
  getRLFails : Bool
  createOTPFails : Bool
  getRLAgainFails : Bool
  updateRLFails : Bool
  rnd : Nat
  sessionToken : String
  deriving Repr, DecidableEq

/-- State touched by SendOTP: the otps table and the rate-limit store. -/
structure SendState where
  otps : List OTP
  rl : RLStore

/-- OTPResponse of a successful send (the code itself is printed to the
delivery sink, never returned). -/
structure OTPResponse where
  message : String
  token : String
  phoneNumber : String
  expiresAt : Int
  deriving Repr, DecidableEq

/-- The SERIAL id handed to a freshly inserted OTP row. -/
def nextOtpId (db : List OTP) : Nat :=
  (db.map (fun o => o.id)).foldr max 0 + 1

/-- otpService.SendOTP: rate-limit check (fails closed), code and session
token generation, OTP row insertion, then the rate-limit update whose
failure is only logged ("Don't return error as OTP was created
successfully"). -/
def sendOTP (cfg : Config) (env : SendEnv) (st : SendState) (now : Int)
    (phoneNumber : String) : SendState × Except String OTPResponse :=
  if env.getRLFails then
    (st, .error "failed to check rate limit: storage error")
  else if isRateLimited cfg (rlGet st.rl phoneNumber) now then
    (st, .error ("rate limit exceeded. Maximum " ++
      toString cfg.rateLimitMaxRequests ++ " requests per " ++
      toString cfg.rateLimitWindowDuration))
  else
    let code := generateOTPCode cfg.otpLength env.rnd
    if env.createOTPFails then
      (st, .error "failed to create OTP: storage error")
    else
      let otp : OTP :=
        { id := nextOtpId st.otps
          phone_number := phoneNumber
          code := code
          session_token := env.sessionToken
          expires_at := now + cfg.otpExpirationTime
          is_used := false
          created_at := now
          used_at := none }
      let st1 : SendState := { otps := st.otps ++ [otp], rl := st.rl }
      let newInfo :=
        updateRateLimitInfo cfg (rlGet st1.rl phoneNumber) now phoneNumber
      let st2 : SendState :=
        if env.getRLAgainFails || env.updateRLFails then st1
        else { st1 with rl := rlUpsert st1.rl newInfo }
      (st2, .ok
        { message := "OTP sent successfully"
          token := env.sessionToken
          phoneNumber := phoneNumber
          expiresAt := now + cfg.otpExpirationTime })

/-- A sequence of SendOTP calls at the given times for one phone number;
returns the final state and, per call, whether it was allowed. -/
def runSends (cfg : Config) (env : SendEnv) (phoneNumber : String) :
    SendState → List Int → SendState × List Bool
  | st, [] => (st, [])
  | st, t :: ts =>
    let step := sendOTP cfg env st t phoneNumber
    let rest := runSends cfg env phoneNumber step.1 ts
    (rest.1, (step.2.toBool) :: rest.2)

/-! ## JWT and session token store (service/jwt_service.go,
service/token_service.go)

The HMAC-SHA256 signature and the SHA-256 token fingerprint come from
external libraries; they are modelled symbolically as deterministic tagged
strings over the signed data, which preserves exactly the property the
service relies on: recomputing the MAC over the same claims and secret
reproduces it, and hashing the same token string reproduces the same
fingerprint. -/

structure JWTClaims where
  user_id : Nat
  phone_number : String
  expires_at : Int
  issued_at : Int
  not_before : Int
  issuer : String
  subject : String
  deriving Repr, DecidableEq

/-- Serialization of the claims (the JSON payload of the JWT). -/
def serializeClaims (c : JWTClaims) : String :=
  toString c.user_id ++ "|" ++ c.phone_number ++ "|" ++
    toString c.expires_at ++ "|" ++ toString c.issued_at ++ "|" ++
    toString c.not_before ++ "|" ++ c.issuer ++ "|" ++ c.subject

/-- Symbolic HMAC-SHA256 over the claims with the signing secret. -/
def macOf (secret : String) (c : JWTClaims) : String :=
  "HMACSHA256(" ++ serializeClaims c ++ "," ++ secret ++ ")"

/-- A signed bearer token: claims plus signature. -/
structure SignedToken where
  claims : JWTClaims
  mac : String
  deriving Repr, DecidableEq

/-- jwt.NewWithClaims + SignedString. -/
def signToken (secret : String) (c : JWTClaims) : SignedToken :=
  ⟨c, macOf secret c⟩

/-- The compact string form of the token (what goes on the wire and into
the fingerprint). -/
def serializeToken (t : SignedToken) : String :=
  serializeClaims t.claims ++ "." ++ t.mac

/-- jwtService.hashToken: symbolic SHA-256 hex digest of the full token
string (not of the claims). -/
def hashToken (t : SignedToken) : String :=
  "SHA256(" ++ serializeToken t ++ ")"

/-- jwt.ParseWithClaims validation: the HMAC signature must verify against
the secret and the registered claims must pass (now before expires_at, and
not_before at or before now). -/
def parseValid (secret : String) (now : Int) (t : SignedToken) : Bool :=
  t.mac == macOf secret t.claims &&
    decide (now < t.claims.expires_at) && decide (t.claims.not_before ≤ now)

/-- service.TokenInfo stored under the fingerprint key in Redis. -/
structure TokenInfo where
  user_id : Nat
  token_hash : String
  issued_at : Int
  expires_at : Int
  last_used : Int
  deriving Repr, DecidableEq

/-- The Redis state used by the token service: the "token:<hash>" keyed
records and the per-user "user_tokens:<id>" fingerprint sets.  TTL-driven
eviction is real-time behavior outside this model. -/
structure RedisState where
  tokens : List (String × TokenInfo)
  user_tokens : List (Nat × List String)
  deriving Repr, DecidableEq

/-- Redis GET on the token keyspace. -/
def kvGet (l : List (String × TokenInfo)) (k : String) : Option TokenInfo :=
  (List.find? (fun kv => kv.1 == k) l).map (fun kv => kv.2)

/-- Redis SET on the token keyspace (overwrite). -/
def kvSet (l : List (String × TokenInfo)) (k : String) (v : TokenInfo) :
    List (String × TokenInfo) :=
  (k, v) :: List.filter (fun kv => !(kv.1 == k)) l

/-- Redis DEL on the token keyspace. -/
def kvDel (l : List (String × TokenInfo)) (k : String) :
    List (String × TokenInfo) :=
  List.filter (fun kv => !(kv.1 == k)) l

/-- Redis SADD on a user's fingerprint set. -/
def userTokensAdd (l : List (Nat × List String)) (uid : Nat) (hash : String) :
    List (Nat × List String) :=
  match List.find? (fun kv => kv.1 == uid) l with
  | none => (uid, [hash]) :: l
  | some _ =>
    List.map (fun kv =>
      if kv.1 == uid then (kv.1, hash :: kv.2.filter (fun h => !(h == hash)))
      else kv) l

/-- Redis SREM on a user's fingerprint set. -/
def userTokensRem (l : List (Nat × List String)) (uid : Nat) (hash : String) :
    List (Nat × List String) :=
  List.map (fun kv =>
    if kv.1 == uid then (kv.1, kv.2.filter (fun h => !(h == hash)))
    else kv) l

/-- The "token:" key prefixing of the token service. -/
def tokenKey (hash : String) : String := "token:" ++ hash

/-- TokenService.StoreToken: SET token:<hash> = info (with TTL = remaining
token lifetime) and SADD the hash into the user's set. -/
def tsStoreToken (st : RedisState) (hash : String) (info : TokenInfo) :
    RedisState :=
  { tokens := kvSet st.tokens (tokenKey hash) info
    user_tokens := userTokensAdd st.user_tokens info.user_id hash }

/-- TokenService.ValidateToken: GET token:<hash>; a missing key is the
"token not found or expired" rejection.  (The fire-and-forget last-used
refresh rewrites the same record preserving its TTL and is not modelled.) -/
def tsValidateToken (st : RedisState) (hash : String) :
    Except String TokenInfo :=
  match kvGet st.tokens (tokenKey hash) with
  | none => .error "token not found or expired"
  | some info => .ok info

/-- TokenService.RevokeToken: read the record to learn the user id, SREM
the hash from that user's set when found, then DEL token:<hash>. -/
def tsRevokeToken (st : RedisState) (hash : String) : RedisState :=
  let st1 :=
    match tsValidateToken st hash with
    | .ok info =>
      { st with user_tokens := userTokensRem st.user_tokens info.user_id hash }
    | .error _ => st
  { st1 with tokens := kvDel st1.tokens (tokenKey hash) }

/-- entity.AuthResponse (token, user, expiry). -/
structure AuthResponse where
  token : SignedToken
  user : User
  expires_at : Int
  message : String
  deriving Repr, DecidableEq

/-- jwtService.GenerateToken: sign the claims for the user, then try to
persist the session record under the token fingerprint; a store failure
(`storeFails`) is logged and deliberately does not fail issuance. -/
def generateToken (cfg : Config) (storeFails : Bool) (st : RedisState)
    (now : Int) (user : User) : RedisState × Except String AuthResponse :=
  let expiresAt := now + cfg.jwtExpirationTime
  let claims : JWTClaims :=
    { user_id := user.id
      phone_number := user.phone_number
      expires_at := expiresAt
      issued_at := now
      not_before := now
      issuer := "otp-auth-service"
      subject := "user:" ++ toString user.id }
  let tok := signToken cfg.jwtSecret claims
  let tokenHash := hashToken tok
  let info : TokenInfo :=
    { user_id := user.id, token_hash := tokenHash
      issued_at := now, expires_at := expiresAt, last_used := now }
  let st' := if storeFails then st else tsStoreToken st tokenHash info
  (st', .ok
    { token := tok, user := user, expires_at := expiresAt
      message := "Authentication successful" })

/-- jwtService.ValidateToken: signature and registered-claim checks first;
only then the Redis session-record lookup by fingerprint, whose miss is the
"token session expired" rejection. -/
def jwtValidateToken (cfg : Config) (st : RedisState) (now : Int)
    (t : SignedToken) : Except String SignedToken :=
  if !(parseValid cfg.jwtSecret now t) then .error "invalid token"
  else
    match tsValidateToken st (hashToken t) with
    | .error _ => .error "token session expired"
    | .ok _ => .ok t

/-- jwtService.RevokeToken: revoke the session record of the token's
fingerprint. -/
def jwtRevokeToken (st : RedisState) (t : SignedToken) : RedisState :=
  tsRevokeToken st (hashToken t)

/-- handler.JWTMiddleware's outcome: any jwtService.ValidateToken error is
answered with 401 Unauthorized. -/
def authMiddlewareStatus (r : Except String SignedToken) : Nat :=
  match r with
  | .error _ => 401
  | .ok _ => 200

/-! ## Supporting lemmas -/

lemma pickLatest_mem {l : List OTP} {r : OTP} (h : pickLatest l = some r) :
    r ∈ l := by
  induction l with
  | nil => simp [pickLatest] at h
  | cons o rest ih =>
    simp only [pickLatest] at h
    cases hrest : pickLatest rest with
    | none => rw [hrest] at h; simp at h; simp [h]
    | some b =>
      rw [hrest] at h
      by_cases hc : b.created_at > o.created_at
      · simp only [if_pos hc, Option.some.injEq] at h
        subst h
        exact List.mem_cons_of_mem _ (ih hrest)
      · simp only [if_neg hc, Option.some.injEq] at h
        subst h
        exact List.mem_cons_self _ _

lemma pickLatest_eq_none {l : List OTP} : pickLatest l = none ↔ l = [] := by
  cases l with
  | nil => simp [pickLatest]
  | cons o rest =>
    simp only [pickLatest]
    cases hrest : pickLatest rest with
    | none => simp
    | some b => by_cases hc : b.created_at > o.created_at <;> simp [hc]

lemma getActive_some_mem {db : List OTP} {now : Int} {st c : String} {r : OTP}
    (h : getActiveBySessionTokenAndCode db now st c = some r) :
    r ∈ db ∧ activeMatch now st c r = true := by
  have hm := pickLatest_mem h
  rw [List.mem_filter] at hm
  exact hm

lemma getActive_eq_none_of {db : List OTP} {now : Int} {st c : String}
    (h : ∀ o ∈ db, activeMatch now st c o = false) :
    getActiveBySessionTokenAndCode db now st c = none := by
  unfold getActiveBySessionTokenAndCode
  rw [pickLatest_eq_none, List.filter_eq_nil_iff]
  intro o ho
  simp [h o ho]

lemma getActive_isSome_of {db : List OTP} {now : Int} {st c : String}
    {o : OTP} (ho : o ∈ db) (hm : activeMatch now st c o = true) :
    (getActiveBySessionTokenAndCode db now st c).isSome := by
  cases hres : getActiveBySessionTokenAndCode db now st c with
  | some r => simp
  | none =>
    unfold getActiveBySessionTokenAndCode at hres
    rw [pickLatest_eq_none, List.filter_eq_nil_iff] at hres
    exact absurd hm (by simpa using hres o ho)

/-- Fields of a row satisfying the active-lookup predicate. -/
lemma activeMatch_iff {now : Int} {st c : String} {o : OTP} :
    activeMatch now st c o = true ↔
      o.session_token = st ∧ o.code = c ∧ o.is_used = false ∧
        now < o.expires_at := by
  simp [activeMatch, Bool.and_eq_true, and_assoc]

/-- After MarkAsUsed on the id of an active matching row, no row of the
updated table still passes the active lookup for that (session_token, code)
pair — at any later time.  Uses the session_token uniqueness constraint. -/
lemma no_active_after_mark {db : List OTP} {r : OTP} {now₀ now now' : Int}
    {st c : String} (hnd : sessionTokensNodup db) (hr : r ∈ db)
    (hm : activeMatch now st c r = true) :
    getActiveBySessionTokenAndCode (markAsUsed db now₀ r.id).1 now' st c
      = none := by
  obtain ⟨htok, hcode, hused, _⟩ := activeMatch_iff.mp hm
  apply getActive_eq_none_of
  intro o' ho'
  simp only [markAsUsed, List.mem_map] at ho'
  obtain ⟨o, ho, heq⟩ := ho'
  by_cases hflip : (o.id == r.id && o.is_used == false) = true
  · rw [if_pos hflip] at heq
    subst heq
    simp [activeMatch]
  · rw [if_neg hflip] at heq
    subst heq
    by_contra hmo
    rw [Bool.not_eq_false, activeMatch_iff] at hmo
    obtain ⟨htok', _, hused', _⟩ := hmo
    have : o = r :=
      List.inj_on_of_nodup_map hnd ho hr (htok'.trans htok.symm)
    subst this
    simp [hused'] at hflip

/-- The conditional MarkAsUsed on an active member row affects at least one
row. -/
lemma markAsUsed_affected_pos {db : List OTP} {r : OTP} {now₀ now : Int}
    {st c : String} (hr : r ∈ db) (hm : activeMatch now st c r = true) :
    0 < (markAsUsed db now₀ r.id).2 := by
  obtain ⟨_, _, hused, _⟩ := activeMatch_iff.mp hm
  simp only [markAsUsed]
  rw [List.countP_pos_iff]
  exact ⟨r, hr, by simp [hused]⟩

/-- A failure-free VerifyOTP that misses the active lookup returns the
invalid-or-expired error and leaves both tables unchanged. -/
lemma verifyOTP_lookup_none {odb : List OTP} {udb : List User} {now : Int}
    {st c : String}
    (h : getActiveBySessionTokenAndCode odb now st c = none) :
    verifyOTP verifyEnvOk odb udb now st c =
      ⟨odb, udb, .error "invalid or expired OTP"⟩ := by
  simp [verifyOTP, verifyOTPSteps, verifyEnvOk, h]

/-- A successful failure-free VerifyOTP found an active row and its final
OTP table is exactly the MarkAsUsed update on that row's id. -/
lemma verifyOTP_ok_extract {odb : List OTP} {udb : List User} {now : Int}
    {st c : String} {u : User}
    (hok : (verifyOTP verifyEnvOk odb udb now st c).result = .ok u) :
    ∃ r, getActiveBySessionTokenAndCode odb now st c = some r ∧
      (verifyOTP verifyEnvOk odb udb now st c).otps =
        (markAsUsed odb now r.id).1 := by
  simp only [verifyOTP, verifyOTPSteps, verifyEnvOk] at hok ⊢
  cases hga : getActiveBySessionTokenAndCode odb now st c with
  | none => rw [hga] at hok; simp at hok
  | some r =>
    rw [hga] at hok
    refine ⟨r, rfl, ?_⟩
    by_cases hz : (markAsUsed odb now r.id).2 = 0
    · simp [hz] at hok
    · cases hgu : getByPhoneNumber udb r.phone_number with
      | none => simp [hz, hgu]
      | some user =>
        by_cases hl : (updateLastLogin udb now r.phone_number).2 = 0
        · simp [hz, hl, hgu] at hok
        · simp [hz, hl, hgu]

/-- A failure-free VerifyOTP that finds an active row succeeds. -/
lemma verifyOTP_ok_of_active {odb : List OTP} {udb : List User} {now : Int}
    {st c : String} {r : OTP}
    (hga : getActiveBySessionTokenAndCode odb now st c = some r) :
    ∃ u, (verifyOTP verifyEnvOk odb udb now st c).result = .ok u := by
  obtain ⟨hmem, hmatch⟩ := getActive_some_mem hga
  have hpos := @markAsUsed_affected_pos _ _ now _ _ _ hmem hmatch
  have hz : ¬((markAsUsed odb now r.id).2 = 0) := by omega
  simp only [verifyOTP, verifyOTPSteps, verifyEnvOk]
  rw [hga]
  cases hgu : getByPhoneNumber udb r.phone_number with
  | none => simp [hz, hgu]
  | some user =>
    have humem := List.find?_some hgu
    have humem' := List.mem_of_find?_eq_some hgu
    have hlpos : 0 < (updateLastLogin udb now r.phone_number).2 := by
      simp only [updateLastLogin]
      rw [List.countP_pos_iff]
      exact ⟨user, humem', humem⟩
    have hl : ¬((updateLastLogin udb now r.phone_number).2 = 0) := by omega
    simp [hz, hl, hgu]

instance : DecidableEq (Except String User) :=
  fun a b =>
    match a, b with
    | .ok x, .ok y =>
      if h : x = y then isTrue (by rw [h]) else isFalse (by simp [h])
    | .error x, .error y =>
      if h : x = y then isTrue (by rw [h]) else isFalse (by simp [h])
    | .ok _, .error _ => isFalse (by simp)
    | .error _, .ok _ => isFalse (by simp)

instance (db : List OTP) : Decidable (sessionTokensNodup db) := by
  unfold sessionTokensNodup
  infer_instance

/-! ## Sample data for the concrete witnesses -/

/-- A fresh, unused challenge row. -/
def otpRow1 : OTP :=
  { id := 1, phone_number := "+15551234567", code := "123456"
    session_token := "sess1", expires_at := 100, is_used := false
    created_at := 0, used_at := none }

/-- The same row after a concurrent verify already flipped it. -/
def otpRow1Used : OTP :=
  { otpRow1 with is_used := true, used_at := some 40 }

/-- env with only the user-directory read failing (a database outage hit
between MarkAsUsed and GetByPhoneNumber). -/
def envGetUserFails : VerifyEnv :=
  { lookupFails := false, markExecFails := false, getUserFails := true
    createUserFails := false, updateLoginFails := false }

/-! ## Claims -/

/-- C1: verification succeeds at most once per challenge.  Once a
failure-free VerifyOTP has succeeded (flipping is_used), any later
VerifyOTP on the resulting OTP table with the identical sessionHandle and
code — at any later time and for any user-table state — returns the
"invalid or expired OTP" error instead of a second success.  The
session_token uniqueness constraint of the otps table is the `hnd`
hypothesis. -/
theorem verifyOTP_at_most_once (odb : List OTP) (udb udb2 : List User)
    (now now' : Int) (sessionToken code : String) (u : User)
    (hnd : sessionTokensNodup odb)
    (hok : (verifyOTP verifyEnvOk odb udb now sessionToken code).result
      = .ok u) :
    (verifyOTP verifyEnvOk
        (verifyOTP verifyEnvOk odb udb now sessionToken code).otps
        udb2 now' sessionToken code).result =
      .error "invalid or expired OTP" := by
  obtain ⟨r, hga, hotps⟩ := verifyOTP_ok_extract hok
  obtain ⟨hmem, hmatch⟩ := getActive_some_mem hga
  rw [hotps, verifyOTP_lookup_none (no_active_after_mark hnd hmem hmatch)]

/-- Witness for C1 on concrete data: the first verify succeeds, the second
one is rejected. -/
theorem verifyOTP_at_most_once_witness :
    (verifyOTP verifyEnvOk [otpRow1] [] 50 "sess1" "123456").result =
      .ok { id := 1, phone_number := "+15551234567", registered_at := 50
            last_login_at := some 50, is_active := true } ∧
    (verifyOTP verifyEnvOk
        (verifyOTP verifyEnvOk [otpRow1] [] 50 "sess1" "123456").otps
        [] 60 "sess1" "123456").result = .error "invalid or expired OTP" :=
  ⟨by decide,
   verifyOTP_at_most_once [otpRow1] [] [] 50 60 "sess1" "123456"
     { id := 1, phone_number := "+15551234567", registered_at := 50
       last_login_at := some 50, is_active := true }
     (by decide) (by decide)⟩

/-- C5: for an unused, unexpired challenge, VerifyOTP with a wrong code
fails with "invalid or expired OTP" and changes neither the OTP table nor
the user table, so a following VerifyOTP with the correct code before
expiry still succeeds. -/
theorem wrong_code_nonconsuming (odb : List OTP) (udb : List User)
    (r : OTP) (now₁ now₂ : Int) (wrongCode : String)
    (hnd : sessionTokensNodup odb) (hr : r ∈ odb)
    (hused : r.is_used = false) (_hexp1 : now₁ < r.expires_at)
    (hexp2 : now₂ < r.expires_at) (hwrong : wrongCode ≠ r.code) :
    verifyOTP verifyEnvOk odb udb now₁ r.session_token wrongCode =
      ⟨odb, udb, .error "invalid or expired OTP"⟩ ∧
    ∃ u, (verifyOTP verifyEnvOk odb udb now₂ r.session_token r.code).result
      = .ok u := by
  constructor
  · apply verifyOTP_lookup_none
    apply getActive_eq_none_of
    intro o ho
    by_contra hmo
    rw [Bool.not_eq_false, activeMatch_iff] at hmo
    obtain ⟨htok, hcode, _, _⟩ := hmo
    have heq : o = r := List.inj_on_of_nodup_map hnd ho hr htok
    rw [heq] at hcode
    exact hwrong hcode.symm
  · have hmatch : activeMatch now₂ r.session_token r.code r = true := by
      rw [activeMatch_iff]; exact ⟨rfl, rfl, hused, hexp2⟩
    have hsome := getActive_isSome_of hr hmatch
    cases hga : getActiveBySessionTokenAndCode odb now₂ r.session_token
        r.code with
    | none => rw [hga] at hsome; simp at hsome
    | some r' => exact verifyOTP_ok_of_active hga

/-- Witness for C5 on concrete data: the wrong code is rejected without
touching the tables, then the correct code succeeds. -/
theorem wrong_code_nonconsuming_witness :
    verifyOTP verifyEnvOk [otpRow1] [] 50 "sess1" "999999" =
      ⟨[otpRow1], [], .error "invalid or expired OTP"⟩ ∧
    ∃ u, (verifyOTP verifyEnvOk [otpRow1] [] 60 "sess1" "123456").result
      = .ok u :=
  wrong_code_nonconsuming [otpRow1] [] otpRow1 50 60 "999999"
    (by decide) (by decide) (by decide) (by decide) (by decide) (by decide)

/-- C10: VerifyOTP consumes the challenge before resolving the user.  If
the user-directory read fails right after the conditional mark succeeded,
the call returns an error, yet the matched row is already flipped to used
(used_at set), and a retry with the same handle and code is rejected with
"invalid or expired OTP". -/
theorem consume_before_user_resolution (odb : List OTP) (udb : List User)
    (now : Int) (sessionToken code : String) (r : OTP)
    (hnd : sessionTokensNodup odb)
    (hga : getActiveBySessionTokenAndCode odb now sessionToken code
      = some r) :
    (verifyOTP envGetUserFails odb udb now sessionToken code).result =
      .error "failed to get user: storage error" ∧
    { r with is_used := true, used_at := some now } ∈
      (verifyOTP envGetUserFails odb udb now sessionToken code).otps ∧
    ∀ (now' : Int) (udb2 : List User),
      (verifyOTP verifyEnvOk
          (verifyOTP envGetUserFails odb udb now sessionToken code).otps
          udb2 now' sessionToken code).result =
        .error "invalid or expired OTP" := by
  obtain ⟨hmem, hmatch⟩ := getActive_some_mem hga
  obtain ⟨_, _, hused, _⟩ := activeMatch_iff.mp hmatch
  have hpos := @markAsUsed_affected_pos _ _ now _ _ _ hmem hmatch
  have hz : ¬((markAsUsed odb now r.id).2 = 0) := by omega
  have hrun : verifyOTP envGetUserFails odb udb now sessionToken code =
      ⟨(markAsUsed odb now r.id).1, udb,
        .error "failed to get user: storage error"⟩ := by
    simp only [verifyOTP, verifyOTPSteps, envGetUserFails]
    rw [hga]
    simp [hz]
  refine ⟨by rw [hrun], ?_, ?_⟩
  · rw [hrun]
    simp only [markAsUsed, List.mem_map]
    exact ⟨r, hmem, by simp [hused]⟩
  · intro now' udb2
    rw [hrun, verifyOTP_lookup_none (no_active_after_mark hnd hmem hmatch)]

/-- Witness for C10 on concrete data. -/
theorem consume_before_user_resolution_witness :
    (verifyOTP envGetUserFails [otpRow1] [] 50 "sess1" "123456").result =
      .error "failed to get user: storage error" ∧
    { otpRow1 with is_used := true, used_at := some 50 } ∈
      (verifyOTP envGetUserFails [otpRow1] [] 50 "sess1" "123456").otps ∧
    ∀ (now' : Int) (udb2 : List User),
      (verifyOTP verifyEnvOk
          (verifyOTP envGetUserFails [otpRow1] [] 50 "sess1" "123456").otps
          udb2 now' "sess1" "123456").result =
        .error "invalid or expired OTP" :=
  consume_before_user_resolution [otpRow1] [] 50 "sess1" "123456" otpRow1
    (by decide) (by decide)

/-- C4, counterexample: when the challenge was flipped to used between the
lookup and the conditional mark (mark affects zero rows), VerifyOTP does
NOT return "invalid or expired OTP": it returns the wrapped MarkAsUsed
error, which the controller maps to HTTP 500 while the wrong-code/expired
failure maps to 401 — the two are distinguishable to the caller. -/
theorem mark_zero_rows_counterexample :
    (verifyOTPSteps verifyEnvOk [otpRow1] [otpRow1Used] [] 50 "sess1"
        "123456").result =
      .error "failed to mark OTP as used: OTP not found or already used" ∧
    ("failed to mark OTP as used: OTP not found or already used" ≠
      "invalid or expired OTP") ∧
    verifyErrorStatus
        "failed to mark OTP as used: OTP not found or already used" = 500 ∧
    verifyErrorStatus "invalid or expired OTP" = 401 := by
  refine ⟨by decide, by decide, by decide, by decide⟩

/-- C4, amended: whenever the conditional mark affects zero rows after a
successful lookup, VerifyOTP returns the error "failed to mark OTP as
used: OTP not found or already used", which the controller answers with
HTTP 500 — distinguishable from the 401 given to a wrong code or an
expired challenge. -/
theorem mark_zero_rows_error_amended (odbLookup odbMark : List OTP)
    (udb : List User) (now : Int) (sessionToken code : String) (r : OTP)
    (hga : getActiveBySessionTokenAndCode odbLookup now sessionToken code
      = some r)
    (hz : (markAsUsed odbMark now r.id).2 = 0) :
    (verifyOTPSteps verifyEnvOk odbLookup odbMark udb now sessionToken
        code).result =
      .error "failed to mark OTP as used: OTP not found or already used" ∧
    verifyErrorStatus
        "failed to mark OTP as used: OTP not found or already used" = 500 ∧
    verifyErrorStatus "invalid or expired OTP" = 401 := by
  refine ⟨?_, by decide, by decide⟩
  simp only [verifyOTPSteps, verifyEnvOk]
  rw [hga]
  simp [hz]

/-- Witness for the amended C4 on concrete data. -/
theorem mark_zero_rows_error_amended_witness :
    (verifyOTPSteps verifyEnvOk [otpRow1] [otpRow1Used] [] 50 "sess1"
        "123456").result =
      .error "failed to mark OTP as used: OTP not found or already used" ∧
    verifyErrorStatus
        "failed to mark OTP as used: OTP not found or already used" = 500 ∧
    verifyErrorStatus "invalid or expired OTP" = 401 :=
  mark_zero_rows_error_amended [otpRow1] [otpRow1Used] [] 50 "sess1"
    "123456" otpRow1 (by decide) (by decide)

/-- C8: the phone-number validator accepts exactly the strings with a
leading plus, a first digit 1-9 and 6-14 further digits (7-15 digits in
total after the plus), and rejects representatives of every listed failure
mode: empty, missing plus, leading zero after the plus, a letter, embedded
whitespace, a doubled sign, too few digits, too many digits. -/
theorem phone_validator_characterization :
    (∀ s : String, validatePhoneNumber s = true ↔ PhoneSpec s) ∧
    validatePhoneNumber "+1234567890" = true ∧
    validatePhoneNumber "+1234567" = true ∧
    validatePhoneNumber "+123456789012345" = true ∧
    validatePhoneNumber "" = false ∧
    validatePhoneNumber "1234567890" = false ∧
    validatePhoneNumber "+0123456789" = false ∧
    validatePhoneNumber "+12a456789" = false ∧
    validatePhoneNumber "+12 456789" = false ∧
    validatePhoneNumber "++123456789" = false ∧
    validatePhoneNumber "+123456" = false ∧
    validatePhoneNumber "+1234567890123456" = false := by
  refine ⟨?_, by decide, by decide, by decide, by decide, by decide,
    by decide, by decide, by decide, by decide, by decide, by decide⟩
  intro s
  unfold validatePhoneNumber PhoneSpec
  rcases hsd : s.data with _ | ⟨c₀, _ | ⟨c, cs⟩⟩
  · simp [hsd]
  · simp [hsd]
  · simp [isAsciiDigit, Bool.and_eq_true, List.all_eq_true, and_assoc]

/-- With enough fuel, a number below 10^k renders to at most k digits. -/
lemma natDigitsAux_length_le : ∀ (fuel x k : Nat), x < fuel → 1 ≤ k →
    x < 10 ^ k → (natDigitsAux fuel x).length ≤ k := by
  intro fuel
  induction fuel with
  | zero => intro x k hf; omega
  | succ fuel ih =>
    intro x k hf hk hx
    unfold natDigitsAux
    split
    · simpa using hk
    · rename_i h
      simp only [List.length_append, List.length_cons, List.length_nil]
      have hk2 : 2 ≤ k := by
        by_contra hlt
        have hk1 : k = 1 := by omega
        subst hk1
        simp only [pow_one] at hx
        omega
      have hdiv : x / 10 < 10 ^ (k - 1) := by
        rw [Nat.div_lt_iff_lt_mul (by norm_num)]
        calc x < 10 ^ k := hx
        _ = 10 ^ (k - 1) * 10 := by
          rw [← pow_succ]
          congr 1
          omega
      have hfuel : x / 10 < fuel := by
        have h10 : 10 ≤ x := by omega
        have := Nat.div_lt_self (by omega : 0 < x) (by omega : 1 < 10)
        omega
      have := ih (x / 10) (k - 1) hfuel (by omega) hdiv
      omega

/-- A number below 10^k has at most k decimal digits (k ≥ 1). -/
lemma natDigits_length_le (k x : Nat) (hk : 1 ≤ k) (hx : x < 10 ^ k) :
    (natDigits x).length ≤ k :=
  natDigitsAux_length_le (x + 1) x k (by omega) hk hx

lemma natDigits_length_pos (x : Nat) : 0 < (natDigits x).length := by
  unfold natDigits natDigitsAux
  split <;> simp

/-- Length of a generated code: the configured length, except that a
zero-length configuration still renders the single digit 0. -/
lemma generateOTPCode_length {len rnd : Nat} (h : rnd < 10 ^ len) :
    (generateOTPCode len rnd).length = if len = 0 then 1 else len := by
  unfold generateOTPCode
  simp only [String.length]
  rcases Nat.eq_zero_or_pos len with h0 | h0
  · subst h0
    simp only [pow_zero, Nat.lt_one_iff] at h
    subst h
    simp [natDigits, natDigitsAux, digitChar]
  · have hle := natDigits_length_le len rnd h0 h
    have hpos := natDigits_length_pos rnd
    have : len ≠ 0 := by omega
    simp [this]
    omega

/-- C9: the verify endpoint's request validation pins the code length to
exactly 6 characters even though the generated code length follows the
configurable OTP length; for any configuration with OTP length different
from 6, every correctly generated code (any random draw below
10^length) fails validation and the endpoint answers 400 without touching
any state — the verification logic never runs. -/
theorem nondefault_otp_length_rejected (cfg : Config) (rnd : Nat)
    (tok : String) (hlen : cfg.otpLength ≠ 6)
    (hrnd : rnd < 10 ^ cfg.otpLength) :
    validateVerifyOTPRequest
      { token := tok, code := generateOTPCode cfg.otpLength rnd } = false ∧
    ∀ (env : VerifyEnv) (odb : List OTP) (udb : List User) (now : Int),
      verifyOTPEndpoint env odb udb now
        { token := tok, code := generateOTPCode cfg.otpLength rnd } =
        (odb, udb, 400) := by
  have hclen := generateOTPCode_length hrnd
  have hval : validateVerifyOTPRequest
      { token := tok, code := generateOTPCode cfg.otpLength rnd } = false := by
    simp only [validateVerifyOTPRequest, hclen]
    rcases Nat.eq_zero_or_pos cfg.otpLength with h0 | h0
    · simp [h0]
    · have : cfg.otpLength ≠ 0 := by omega
      simp [this, hlen]
  refine ⟨hval, ?_⟩
  intro env odb udb now
  simp [verifyOTPEndpoint, hval]

/-- Witness for C9: with OTP length 4, the generated code "0007" is
rejected by the endpoint with 400. -/
theorem nondefault_otp_length_rejected_witness :
    validateVerifyOTPRequest
      { token := "sess1", code := generateOTPCode 4 7 } = false ∧
    ∀ (env : VerifyEnv) (odb : List OTP) (udb : List User) (now : Int),
      verifyOTPEndpoint env odb udb now
        { token := "sess1", code := generateOTPCode 4 7 } =
        (odb, udb, 400) :=
  nondefault_otp_length_rejected
    { defaultConfig with otpLength := 4 } 7 "sess1"
    (by decide) (by decide)

/-! ## Rate limiter lemmas -/

/-- A SendOTP env whose external calls all succeed, with the given random
draw and session token. -/
def sendEnvOk (rnd : Nat) (sessionToken : String) : SendEnv :=
  { getRLFails := false, createOTPFails := false, getRLAgainFails := false
    updateRLFails := false, rnd := rnd, sessionToken := sessionToken }

lemma rlGet_upsert (st : RLStore) (info : RateLimitInfo) :
    rlGet (rlUpsert st info) info.phone_number = some info := by
  simp [rlGet, rlUpsert]

/-- First request for a phone number: allowed, window opened at count 1. -/
lemma sendOTP_fresh (cfg : Config) (rnd : Nat) (tok : String)
    (st : SendState) (now : Int) (phone : String)
    (h : rlGet st.rl phone = none) :
    (sendOTP cfg (sendEnvOk rnd tok) st now phone).2.toBool = true ∧
    rlGet (sendOTP cfg (sendEnvOk rnd tok) st now phone).1.rl phone =
      some { phone_number := phone, request_count := 1
             last_request_at := now, window_start_at := now } := by
  constructor
  · simp [sendOTP, sendEnvOk, isRateLimited, h, Except.toBool]
  · simp only [sendOTP, sendEnvOk, isRateLimited, h]
    simp [updateRateLimitInfo, h, rlGet, rlUpsert]

/-- Request inside the window below the cap: allowed, count incremented,
window start preserved. -/
lemma sendOTP_within (cfg : Config) (rnd : Nat) (tok : String)
    (st : SendState) (now : Int) (phone : String) (r : RateLimitInfo)
    (hr : rlGet st.rl phone = some r) (hphone : r.phone_number = phone)
    (hw : now - r.window_start_at < cfg.rateLimitWindowDuration)
    (hc : r.request_count < cfg.rateLimitMaxRequests) :
    (sendOTP cfg (sendEnvOk rnd tok) st now phone).2.toBool = true ∧
    rlGet (sendOTP cfg (sendEnvOk rnd tok) st now phone).1.rl phone =
      some { r with request_count := r.request_count + 1
                    last_request_at := now } := by
  have hw' : ¬(now - r.window_start_at ≥ cfg.rateLimitWindowDuration) := by
    omega
  have hc' : ¬(r.request_count ≥ cfg.rateLimitMaxRequests) := by omega
  subst hphone
  constructor
  · simp [sendOTP, sendEnvOk, isRateLimited, hr, hw', hc', Except.toBool]
  · simp only [sendOTP, sendEnvOk, isRateLimited, hr]
    simp only [if_neg hw', hc', decide_eq_true_eq, if_false,
      Bool.false_eq_true, Bool.or_self]
    simp [updateRateLimitInfo, hr, hw', rlGet, rlUpsert]

/-- Request inside the window at or above the cap: rejected with the
rate-limit error, all state untouched (no OTP row, no counter change). -/
lemma sendOTP_limited (cfg : Config) (rnd : Nat) (tok : String)
    (st : SendState) (now : Int) (phone : String) (r : RateLimitInfo)
    (hr : rlGet st.rl phone = some r)
    (hw : now - r.window_start_at < cfg.rateLimitWindowDuration)
    (hc : r.request_count ≥ cfg.rateLimitMaxRequests) :
    sendOTP cfg (sendEnvOk rnd tok) st now phone =
      (st, .error ("rate limit exceeded. Maximum " ++
        toString cfg.rateLimitMaxRequests ++ " requests per " ++
        toString cfg.rateLimitWindowDuration)) := by
  have hw' : ¬(now - r.window_start_at ≥ cfg.rateLimitWindowDuration) := by
    omega
  simp [sendOTP, sendEnvOk, isRateLimited, hr, hw', hc]

/-- Request after the window elapsed: allowed, counter reset to 1 with a
new window start. -/
lemma sendOTP_elapsed (cfg : Config) (rnd : Nat) (tok : String)
    (st : SendState) (now : Int) (phone : String) (r : RateLimitInfo)
    (hr : rlGet st.rl phone = some r) (hphone : r.phone_number = phone)
    (hw : now - r.window_start_at ≥ cfg.rateLimitWindowDuration) :
    (sendOTP cfg (sendEnvOk rnd tok) st now phone).2.toBool = true ∧
    rlGet (sendOTP cfg (sendEnvOk rnd tok) st now phone).1.rl phone =
      some { r with request_count := 1, window_start_at := now
                    last_request_at := now } := by
  subst hphone
  constructor
  · simp [sendOTP, sendEnvOk, isRateLimited, hr, hw, Except.toBool]
  · simp only [sendOTP, sendEnvOk, isRateLimited, hr]
    simp only [if_pos hw, Bool.false_eq_true, if_false, Bool.or_self]
    simp [updateRateLimitInfo, hr, hw, rlGet, rlUpsert]

/-- Running further sends inside the window, starting from a stored count
`c`, keeps allowing while the total stays at or below the cap, ending at
count `c + ts.length` with the window start untouched. -/
lemma runSends_within (cfg : Config) (rnd : Nat) (tok : String)
    (phone : String) :
    ∀ (ts : List Int) (st : SendState) (r : RateLimitInfo),
      rlGet st.rl phone = some r → r.phone_number = phone →
      (∀ t ∈ ts, t - r.window_start_at < cfg.rateLimitWindowDuration) →
      r.request_count + ts.length ≤ cfg.rateLimitMaxRequests →
      (runSends cfg (sendEnvOk rnd tok) phone st ts).2 =
        List.replicate ts.length true ∧
      ∃ r', rlGet (runSends cfg (sendEnvOk rnd tok) phone st ts).1.rl phone
          = some r' ∧
        r'.phone_number = phone ∧
        r'.request_count = r.request_count + ts.length ∧
        r'.window_start_at = r.window_start_at := by
  intro ts
  induction ts with
  | nil =>
    intro st r hr hphone _ _
    exact ⟨rfl, r, hr, hphone, by simp, rfl⟩
  | cons t ts ih =>
    intro st r hr hphone hin hcap
    have hw : t - r.window_start_at < cfg.rateLimitWindowDuration :=
      hin t (by simp)
    have hc : r.request_count < cfg.rateLimitMaxRequests := by
      have := hcap; simp at this; omega
    obtain ⟨hok, hget⟩ := sendOTP_within cfg rnd tok st t phone r hr hphone
      hw hc
    have hstep := ih (sendOTP cfg (sendEnvOk rnd tok) st t phone).1
      { r with request_count := r.request_count + 1, last_request_at := t }
      hget hphone (by simpa using fun t' ht' => hin t' (by simp [ht']))
      (by simp at hcap ⊢; omega)
    simp only [runSends]
    refine ⟨?_, ?_⟩
    · simp [hok, hstep.1, List.replicate_succ]
    · obtain ⟨r', hr', h1, h2, h3⟩ := hstep.2
      exact ⟨r', hr', h1, by simp at h2 ⊢; omega, h3⟩

/-- C3: with maxRequests N and windowDuration W, a phone number with no
stored window record gets its first N sends (at t1 and at times ts inside
the window) allowed; a further send still inside the window is rejected
with the rate-limit error and changes no state (the stored request_count
stays N, the OTP table is untouched); once a send happens at tReset with
tReset - t1 ≥ W, it is allowed again and the counter restarts at 1 with
window start tReset. -/
theorem rate_limit_window_behavior (cfg : Config) (rnd : Nat)
    (tok phone : String) (st0 : SendState) (t1 tLim tReset : Int)
    (ts : List Int)
    (h0 : rlGet st0.rl phone = none)
    (hts : ∀ t ∈ ts, t - t1 < cfg.rateLimitWindowDuration)
    (hlen : ts.length + 1 = cfg.rateLimitMaxRequests)
    (hLim : tLim - t1 < cfg.rateLimitWindowDuration)
    (hReset : tReset - t1 ≥ cfg.rateLimitWindowDuration) :
    (runSends cfg (sendEnvOk rnd tok) phone st0 (t1 :: ts)).2 =
      List.replicate cfg.rateLimitMaxRequests true ∧
    sendOTP cfg (sendEnvOk rnd tok)
        (runSends cfg (sendEnvOk rnd tok) phone st0 (t1 :: ts)).1 tLim
        phone =
      ((runSends cfg (sendEnvOk rnd tok) phone st0 (t1 :: ts)).1,
        .error ("rate limit exceeded. Maximum " ++
          toString cfg.rateLimitMaxRequests ++ " requests per " ++
          toString cfg.rateLimitWindowDuration)) ∧
    (∃ r', rlGet (runSends cfg (sendEnvOk rnd tok) phone st0
          (t1 :: ts)).1.rl phone = some r' ∧
        r'.request_count = cfg.rateLimitMaxRequests ∧
        r'.window_start_at = t1) ∧
    (sendOTP cfg (sendEnvOk rnd tok)
        (runSends cfg (sendEnvOk rnd tok) phone st0 (t1 :: ts)).1 tReset
        phone).2.toBool = true ∧
    ∃ r'', rlGet (sendOTP cfg (sendEnvOk rnd tok)
          (runSends cfg (sendEnvOk rnd tok) phone st0 (t1 :: ts)).1 tReset
          phone).1.rl phone = some r'' ∧
      r''.request_count = 1 ∧ r''.window_start_at = tReset := by
  obtain ⟨hok1, hget1⟩ := sendOTP_fresh cfg rnd tok st0 t1 phone h0
  have hrun := runSends_within cfg rnd tok phone ts
    (sendOTP cfg (sendEnvOk rnd tok) st0 t1 phone).1
    { phone_number := phone, request_count := 1
      last_request_at := t1, window_start_at := t1 }
    hget1 rfl (by simpa using hts) (by simp; omega)
  have hres := hrun.1
  obtain ⟨r', hr', hrphone, hrcount, hrws⟩ := hrun.2
  have hcount : r'.request_count = cfg.rateLimitMaxRequests := by
    simp at hrcount; omega
  have hallowed : (runSends cfg (sendEnvOk rnd tok) phone st0
      (t1 :: ts)).2 = List.replicate cfg.rateLimitMaxRequests true := by
    simp only [runSends]
    rw [hres]
    cases hok : (sendOTP cfg (sendEnvOk rnd tok) st0 t1 phone).2 with
    | error e => rw [hok] at hok1; simp [Except.toBool] at hok1
    | ok v =>
      rw [hok] at hok1
      have : cfg.rateLimitMaxRequests = ts.length + 1 := hlen.symm
      rw [this, List.replicate_succ]
      simp [Except.toBool]
  have hrl : rlGet (runSends cfg (sendEnvOk rnd tok) phone st0
      (t1 :: ts)).1.rl phone = some r' := by
    simp only [runSends]
    exact hr'
  refine ⟨hallowed, ?_, ⟨r', hrl, hcount, hrws⟩, ?_, ?_⟩
  · exact sendOTP_limited cfg rnd tok _ tLim phone r' hrl
      (by rw [hrws]; exact hLim) (by omega)
  · exact (sendOTP_elapsed cfg rnd tok _ tReset phone r' hrl hrphone
      (by rw [hrws]; exact hReset)).1
  · obtain ⟨_, hg⟩ := sendOTP_elapsed cfg rnd tok _ tReset phone r' hrl
      hrphone (by rw [hrws]; exact hReset)
    exact ⟨_, hg, rfl, rfl⟩

/-- Witness for C3 with the default configuration (N = 3, W = 10 minutes):
sends at 0s, 1s, 2s are allowed, a send at 3s is rejected without
incrementing the counter, and a send at 600s is allowed again with the
counter reset to 1. -/
theorem rate_limit_window_behavior_witness :
    (runSends defaultConfig (sendEnvOk 123456 "sessA") "+15551234567"
        { otps := [], rl := [] } [0, 1, 2]).2 =
      List.replicate defaultConfig.rateLimitMaxRequests true ∧
    sendOTP defaultConfig (sendEnvOk 123456 "sessA")
        (runSends defaultConfig (sendEnvOk 123456 "sessA") "+15551234567"
          { otps := [], rl := [] } [0, 1, 2]).1 3 "+15551234567" =
      ((runSends defaultConfig (sendEnvOk 123456 "sessA") "+15551234567"
          { otps := [], rl := [] } [0, 1, 2]).1,
        .error ("rate limit exceeded. Maximum " ++
          toString defaultConfig.rateLimitMaxRequests ++ " requests per " ++
          toString defaultConfig.rateLimitWindowDuration)) ∧
    (∃ r', rlGet (runSends defaultConfig (sendEnvOk 123456 "sessA")
          "+15551234567" { otps := [], rl := [] } [0, 1, 2]).1.rl
          "+15551234567" = some r' ∧
        r'.request_count = defaultConfig.rateLimitMaxRequests ∧
        r'.window_start_at = 0) ∧
    (sendOTP defaultConfig (sendEnvOk 123456 "sessA")
        (runSends defaultConfig (sendEnvOk 123456 "sessA") "+15551234567"
          { otps := [], rl := [] } [0, 1, 2]).1 600
        "+15551234567").2.toBool = true ∧
    ∃ r'', rlGet (sendOTP defaultConfig (sendEnvOk 123456 "sessA")
          (runSends defaultConfig (sendEnvOk 123456 "sessA") "+15551234567"
            { otps := [], rl := [] } [0, 1, 2]).1 600
          "+15551234567").1.rl "+15551234567" = some r'' ∧
      r''.request_count = 1 ∧ r''.window_start_at = 600 :=
  rate_limit_window_behavior defaultConfig 123456 "sessA" "+15551234567"
    { otps := [], rl := [] } 0 3 600 [1, 2]
    (by decide) (by decide) (by decide) (by decide) (by decide)

/-- A SendOTP env in which only the post-issuance rate-limit update
(UpdateRateLimit) fails. -/
def sendEnvUpdateRLFails (rnd : Nat) (sessionToken : String) : SendEnv :=
  { getRLFails := false, createOTPFails := false, getRLAgainFails := false
    updateRLFails := true, rnd := rnd, sessionToken := sessionToken }

/-- A SendOTP env in which the pre-issuance rate-limit check
(GetRateLimit inside IsRateLimited) fails. -/
def sendEnvGetRLFails (rnd : Nat) (sessionToken : String) : SendEnv :=
  { getRLFails := true, createOTPFails := false, getRLAgainFails := false
    updateRLFails := false, rnd := rnd, sessionToken := sessionToken }

/-- One stored rate-limit record for the witness phone number. -/
def rlStore1 : RLStore :=
  [("+15551234567",
    { phone_number := "+15551234567", request_count := 1
      last_request_at := 0, window_start_at := 0 })]

/-- C6, counterexample: when the rate-limiter store operation that records
the send (UpdateRateLimit, after the OTP row was created) fails, SendOTP
does NOT return an error — it succeeds, and the stored request_count is
left unchanged, i.e. an unmetered send went through. -/
theorem rate_limit_update_failure_counterexample :
    (sendOTP defaultConfig (sendEnvUpdateRLFails 123456 "sessB")
        { otps := [], rl := rlStore1 } 10 "+15551234567").2.toBool
      = true ∧
    rlGet (sendOTP defaultConfig (sendEnvUpdateRLFails 123456 "sessB")
        { otps := [], rl := rlStore1 } 10 "+15551234567").1.rl
        "+15551234567" =
      some { phone_number := "+15551234567", request_count := 1
             last_request_at := 0, window_start_at := 0 } := by
  constructor
  · decide
  · decide

/-- C6, amended: only the pre-issuance rate-limit check fails closed — a
GetRateLimit failure inside IsRateLimited makes SendOTP return an error
before any side effect.  A failure of the post-issuance UpdateRateLimit is
merely logged: SendOTP still succeeds and the rate-limit store is left
unchanged, so that send stays uncounted. -/
theorem rate_limit_failure_amended (cfg : Config) (envCheck envRec : SendEnv)
    (st stR : SendState) (now nowR : Int) (phone : String)
    (h1 : envCheck.getRLFails = true)
    (h2 : envRec.getRLFails = false) (h3 : envRec.createOTPFails = false)
    (h4 : envRec.updateRLFails = true)
    (h5 : isRateLimited cfg (rlGet stR.rl phone) nowR = false) :
    sendOTP cfg envCheck st now phone =
      (st, .error "failed to check rate limit: storage error") ∧
    (sendOTP cfg envRec stR nowR phone).2.toBool = true ∧
    (sendOTP cfg envRec stR nowR phone).1.rl = stR.rl := by
  refine ⟨by simp [sendOTP, h1], ?_, ?_⟩
  · simp [sendOTP, h2, h3, h4, h5, Except.toBool]
  · simp [sendOTP, h2, h3, h4, h5]

/-- Witness for the amended C6 on concrete data. -/
theorem rate_limit_failure_amended_witness :
    sendOTP defaultConfig (sendEnvGetRLFails 123456 "sessB")
        { otps := [], rl := rlStore1 } 10 "+15551234567" =
      ({ otps := [], rl := rlStore1 },
        .error "failed to check rate limit: storage error") ∧
    (sendOTP defaultConfig (sendEnvUpdateRLFails 123456 "sessB")
        { otps := [], rl := rlStore1 } 10 "+15551234567").2.toBool
      = true ∧
    (sendOTP defaultConfig (sendEnvUpdateRLFails 123456 "sessB")
        { otps := [], rl := rlStore1 } 10 "+15551234567").1.rl =
      rlStore1 :=
  rate_limit_failure_amended defaultConfig
    (sendEnvGetRLFails 123456 "sessB") (sendEnvUpdateRLFails 123456 "sessB")
    { otps := [], rl := rlStore1 } { otps := [], rl := rlStore1 } 10 10
    "+15551234567" (by decide) (by decide) (by decide) (by decide)
    (by decide)

/-! ## Token store lemmas -/

lemma kvGet_del (l : List (String × TokenInfo)) (k : String) :
    kvGet (kvDel l k) k = none := by
  induction l with
  | nil => simp [kvGet, kvDel]
  | cons kv l ih =>
    by_cases h : kv.1 == k
    · simp [kvGet, kvDel, h]
    · simp [kvGet, kvDel, h]

/-- Revocation touches only the token record of the given fingerprint (and
the user index): the token keyspace afterwards is the DEL of that key. -/
lemma tsRevokeToken_tokens (st : RedisState) (hash : String) :
    (tsRevokeToken st hash).tokens = kvDel st.tokens (tokenKey hash) := by
  unfold tsRevokeToken
  cases tsValidateToken st hash <;> rfl

/-- C2: after RevokeToken completes, validating the same bearer token is
rejected with the session-expired error and the middleware answers 401
Unauthorized — even though its signature and its expiry/not-before claims
are still individually valid; and in general a validation succeeds only
when, after the signature and claim checks pass, a session record exists
under the token's fingerprint. -/
theorem revoke_then_validate_unauthorized (cfg : Config) (st : RedisState)
    (t : SignedToken) (now : Int)
    (hsig : t.mac = macOf cfg.jwtSecret t.claims)
    (hexp : now < t.claims.expires_at)
    (hnbf : t.claims.not_before ≤ now) :
    jwtValidateToken cfg (jwtRevokeToken st t) now t =
      .error "token session expired" ∧
    authMiddlewareStatus
        (jwtValidateToken cfg (jwtRevokeToken st t) now t) = 401 ∧
    ∀ (st' : RedisState) (now' : Int) (t' x : SignedToken),
      jwtValidateToken cfg st' now' t' = .ok x →
      parseValid cfg.jwtSecret now' t' = true ∧
      kvGet st'.tokens (tokenKey (hashToken t')) ≠ none := by
  have hparse : parseValid cfg.jwtSecret now t = true := by
    simp [parseValid, hsig, hexp, hnbf]
  have hmiss : tsValidateToken (jwtRevokeToken st t) (hashToken t) =
      .error "token not found or expired" := by
    unfold tsValidateToken jwtRevokeToken
    rw [tsRevokeToken_tokens, kvGet_del]
  have hfirst : jwtValidateToken cfg (jwtRevokeToken st t) now t =
      .error "token session expired" := by
    unfold jwtValidateToken
    rw [hparse, hmiss]
    simp
  refine ⟨hfirst, by rw [hfirst]; rfl, ?_⟩
  intro st' now' t' x hv
  unfold jwtValidateToken at hv
  by_cases hp : parseValid cfg.jwtSecret now' t' = true
  · refine ⟨hp, ?_⟩
    rw [hp] at hv
    simp only [Bool.not_true, Bool.false_eq_true, if_false] at hv
    unfold tsValidateToken at hv
    cases hg : kvGet st'.tokens (tokenKey (hashToken t')) with
    | none => rw [hg] at hv; simp at hv
    | some info => simp [hg]
  · rw [Bool.not_eq_true] at hp
    rw [hp] at hv
    simp at hv

/-- Concrete claims/token/store for the C2 witness. -/
def claimsW : JWTClaims :=
  { user_id := 1, phone_number := "+15551234567", expires_at := 86400
    issued_at := 0, not_before := 0, issuer := "otp-auth-service"
    subject := "user:1" }

def tokenW : SignedToken := signToken defaultConfig.jwtSecret claimsW

def redisW : RedisState :=
  tsStoreToken { tokens := [], user_tokens := [] } (hashToken tokenW)
    { user_id := 1, token_hash := hashToken tokenW, issued_at := 0
      expires_at := 86400, last_used := 0 }

/-- Witness for C2 on concrete data: a stored, signature-valid token is
rejected with 401 after its revocation. -/
theorem revoke_then_validate_unauthorized_witness :
    jwtValidateToken defaultConfig (jwtRevokeToken redisW tokenW) 100
        tokenW = .error "token session expired" ∧
    authMiddlewareStatus (jwtValidateToken defaultConfig
        (jwtRevokeToken redisW tokenW) 100 tokenW) = 401 ∧
    ∀ (st' : RedisState) (now' : Int) (t' x : SignedToken),
      jwtValidateToken defaultConfig st' now' t' = .ok x →
      parseValid defaultConfig.jwtSecret now' t' = true ∧
      kvGet st'.tokens (tokenKey (hashToken t')) ≠ none :=
  revoke_then_validate_unauthorized defaultConfig redisW tokenW 100
    rfl (by decide) (by decide)

/-- C7: token issuance survives a session-store write failure.  Whatever
the store outcome, GenerateToken returns no error, the produced token is
structurally valid (signature verifies, claims valid at issuance time),
and the store-failure run returns the very same response as the successful
one. -/
theorem generate_token_survives_store_failure (cfg : Config)
    (st : RedisState) (now : Int) (user : User) (storeFails : Bool)
    (hpos : 0 < cfg.jwtExpirationTime) :
    (∃ resp, (generateToken cfg storeFails st now user).2 = .ok resp ∧
      parseValid cfg.jwtSecret now resp.token = true) ∧
    (generateToken cfg true st now user).2 =
      (generateToken cfg false st now user).2 := by
  constructor
  · refine ⟨_, rfl, ?_⟩
    simp [generateToken, parseValid, signToken]
    omega
  · rfl

/-- Witness for C7 on concrete data, with the store write failing. -/
theorem generate_token_survives_store_failure_witness :
    (∃ resp, (generateToken defaultConfig true
        { tokens := [], user_tokens := [] } 0
        { id := 1, phone_number := "+15551234567", registered_at := 0
          last_login_at := some 0, is_active := true }).2 = .ok resp ∧
      parseValid defaultConfig.jwtSecret 0 resp.token = true) ∧
    (generateToken defaultConfig true
        { tokens := [], user_tokens := [] } 0
        { id := 1, phone_number := "+15551234567", registered_at := 0
          last_login_at := some 0, is_active := true }).2 =
      (generateToken defaultConfig false
        { tokens := [], user_tokens := [] } 0
        { id := 1, phone_number := "+15551234567", registered_at := 0
          last_login_at := some 0, is_active := true }).2 :=
  generate_token_survives_store_failure defaultConfig
    { tokens := [], user_tokens := [] } 0
    { id := 1, phone_number := "+15551234567", registered_at := 0
      last_login_at := some 0, is_active := true } true (by decide)

end OtpAuth
